import Mathlib

/-!
Verification development for the spinal-fracture consult dashboard.

The development shallowly embeds the dashboard's derivation engine
(`calculateHospitalizationDays` and the aggregate computations built on it in
`src/components/Dashboard.tsx`, plus the data loader `fetchPatients`) as
executable Lean functions and proves the specified properties about them.

Modelling conventions for the JavaScript runtime primitives:
* Strings are Lean `String`s; the handful of JS string operations used by the
  code (trim, toLowerCase, toUpperCase, includes) are defined below over the
  character list, restricted to the ASCII case mapping and ASCII whitespace
  that the data actually contains.
* `Number(s)` is modelled for finite decimal literals (optional sign, digits,
  optional fraction); hexadecimal, exponent and Infinity forms are treated as
  NaN (`none`).  NaN is `none`.
* JS `Date` values are modelled as seconds since the epoch in one fixed
  timezone (so local-time versus UTC parsing distinctions vanish); the date
  parser accepts the "YYYY-MM-DD" / "YYYY/MM/DD" formats, optionally followed
  by a space or 'T' and "HH:MM[:SS]", which are the formats the feed produces.
  Invalid dates (`NaN` dates) are `none`.
* Machine floating point does not occur: every number the code manipulates on
  these paths is a (small) integer or decimal, modelled as `Int`/`ℚ`.
-/

set_option maxRecDepth 20000

/-- JS `String.prototype.trim`, restricted to ASCII whitespace. -/
def jsTrim (s : String) : String :=
  String.mk (((s.data.dropWhile Char.isWhitespace).reverse.dropWhile
    Char.isWhitespace).reverse)

/-- JS `toLowerCase`, ASCII case mapping (the keyword lists are ASCII or
Japanese, and Japanese has no case). -/
def jsToLower (s : String) : String := String.mk (s.data.map Char.toLower)

/-- JS `toUpperCase`, ASCII case mapping. -/
def jsToUpper (s : String) : String := String.mk (s.data.map Char.toUpper)

/-- JS `String.prototype.includes`: substring containment. -/
def containsStr (hay needle : String) : Bool :=
  hay.data.tails.any (fun t => List.isPrefixOf needle.data t)

/-- Numeric value of a list of decimal digit characters. -/
def digitsToNat (ds : List Char) : Nat :=
  ds.foldl (fun n c => n * 10 + (c.toNat - 48)) 0

/-- Split off the leading run of decimal digits. -/
def spanDigits (cs : List Char) : List Char × List Char :=
  List.span Char.isDigit cs

/-- Rational addition written through `mkRat` (the `Add ℚ` instance is
`irreducible`, which blocks kernel evaluation in `decide`); provably equal to
`a + b`, see `ratAdd_eq`. -/
def ratAdd (a b : ℚ) : ℚ :=
  mkRat (a.num * b.den + b.num * a.den) (a.den * b.den)

/-- Rational subtraction through `mkRat`; provably equal to `a - b`. -/
def ratSub (a b : ℚ) : ℚ :=
  mkRat (a.num * b.den - b.num * a.den) (a.den * b.den)

/-- Rational division through `mkRat`; provably equal to `a / b` (both give 0
for `b = 0`, a case no call site reaches). -/
def ratDiv (a b : ℚ) : ℚ :=
  mkRat (a.num * b.den * Int.sign b.num) (a.den * b.num.natAbs)

/-- Model of JS `Number(string)` on an already trimmed string (ECMAScript
ToNumber trims; each call site below applies `jsTrim` first).  `none` is NaN.
Finite decimal literals only: an optional sign, then digits with an optional
fractional part.  The empty string is 0, as in JS. -/
def jsNumber (s : String) : Option ℚ :=
  match s.data with
  | [] => some 0
  | cs =>
    let signAndRest : Bool × List Char :=
      match cs with
      | '+' :: r => (false, r)
      | '-' :: r => (true, r)
      | _ => (false, cs)
    let ipRest := spanDigits signAndRest.2
    let core : Option ℚ :=
      match ipRest.2 with
      | [] =>
        if ipRest.1.isEmpty then none
        else some (mkRat (digitsToNat ipRest.1) 1)
      | '.' :: cs3 =>
        let fpRest := spanDigits cs3
        if fpRest.2.isEmpty then
          if ipRest.1.isEmpty && fpRest.1.isEmpty then none
          else some (mkRat
            (digitsToNat ipRest.1 * 10 ^ fpRest.1.length + digitsToNat fpRest.1)
            (10 ^ fpRest.1.length))
        else none
      | _ => none
    core.map (fun q => if signAndRest.1 then -q else q)

/-- Model of JS `parseInt(string)` (base 10, no hex prefix): skip leading
whitespace, optional sign, then the leading run of digits; NaN (`none`) if that
run is empty. -/
def jsParseInt (s : String) : Option Int :=
  let cs := s.data.dropWhile Char.isWhitespace
  let signAndRest : Int × List Char :=
    match cs with
    | '+' :: r => (1, r)
    | '-' :: r => (-1, r)
    | _ => (1, cs)
  let ds := signAndRest.2.takeWhile Char.isDigit
  if ds.isEmpty then none else some (signAndRest.1 * digitsToNat ds)

/-- Gregorian leap year. -/
def isLeapYear (y : Nat) : Bool :=
  y % 4 == 0 && (y % 100 != 0 || y % 400 == 0)

/-- Length of month `m` (1-12) in year `y`. -/
def daysInMonth (y m : Nat) : Nat :=
  if m == 2 then (if isLeapYear y then 29 else 28)
  else if m == 4 || m == 6 || m == 9 || m == 11 then 30
  else 31

/-- Days since 1970-01-01 of the civil date (y, m, d), month 1-12.  The day
may lie outside the month and rolls over linearly, matching the JS `Date`
normalization of out-of-range day arguments. -/
def daysFromCivil (y m d : Int) : Int :=
  let yAdj := if m ≤ 2 then y - 1 else y
  let era := Int.ediv yAdj 400
  let yoe := Int.emod yAdj 400
  let mp := Int.emod (m + 9) 12
  let doy := Int.ediv (153 * mp + 2) 5 + d - 1
  let doe := yoe * 365 + Int.ediv yoe 4 - Int.ediv yoe 100 + doy
  era * 146097 + doe - 719468

/-- Inverse of `daysFromCivil`: the civil date (y, m, d) of a day number. -/
def civilFromDays (z0 : Int) : Int × Int × Int :=
  let z := z0 + 719468
  let era := Int.ediv z 146097
  let doe := Int.emod z 146097
  let yoe := Int.ediv (doe - Int.ediv doe 1460 + Int.ediv doe 36524 -
    Int.ediv doe 146096) 365
  let y := yoe + era * 400
  let doy := doe - (365 * yoe + Int.ediv yoe 4 - Int.ediv yoe 100)
  let mp := Int.ediv (5 * doy + 2) 153
  let d := doy - Int.ediv (153 * mp + 2) 5 + 1
  let m := mp + (if mp < 10 then 3 else -9)
  (if m ≤ 2 then y + 1 else y, m, d)

/-- Model of JS `new Date(year, month, day)` (month 0-based, any integers;
out-of-range months and days roll over), as seconds since the epoch. -/
def newDateYMD (y m0 d : Int) : Int :=
  let ym := y + Int.ediv m0 12
  let mm := Int.emod m0 12
  (daysFromCivil ym (mm + 1) 1 + (d - 1)) * 86400

/-- JS `Date.prototype.getFullYear` on a valid date value. -/
def jsGetFullYear (t : Int) : Int :=
  (civilFromDays (Int.ediv t 86400)).1

/-- JS `Date.prototype.setFullYear`: keep month, day and time of day, replace
the year (Feb 29 rolls to Mar 1 in a non-leap target year, as in JS). -/
def jsSetFullYear (t : Int) (newYear : Int) : Int :=
  let days := Int.ediv t 86400
  let tod := Int.emod t 86400
  let c := civilFromDays days
  daysFromCivil newYear c.2.1 c.2.2 * 86400 + tod

/-- Time-of-day tail "HH:MM" or "HH:MM:SS" of a date-time string, in seconds. -/
def parseTimePart (cs : List Char) : Option Int :=
  let hsRest := spanDigits cs
  if hsRest.1.length < 1 || 2 < hsRest.1.length then none
  else match hsRest.2 with
  | ':' :: r2 =>
    let msRest := spanDigits r2
    if msRest.1.length != 2 then none
    else
      let h := digitsToNat hsRest.1
      let mi := digitsToNat msRest.1
      if 24 ≤ h || 60 ≤ mi then none
      else match msRest.2 with
      | [] => some (h * 3600 + mi * 60)
      | ':' :: r4 =>
        let ssRest := spanDigits r4
        if ssRest.1.length != 2 || !ssRest.2.isEmpty then none
        else
          let sec := digitsToNat ssRest.1
          if 60 ≤ sec then none else some (h * 3600 + mi * 60 + sec)
      | _ => none
  | _ => none

/-- Model of the JS date parser (`Date.parse` / `new Date(string)`) on the
formats the data feed uses: "YYYY-MM-DD" and "YYYY/MM/DD" (1-2 digit month and
day, same separator twice), optionally followed by a space or 'T' and
"HH:MM[:SS]".  Component ranges are validated; anything else is an invalid
date (`none`). -/
def jsDateParse (s : String) : Option Int :=
  let ysRest := spanDigits s.data
  if ysRest.1.length != 4 then none
  else match ysRest.2 with
  | sep :: r2 =>
    if sep != '-' && sep != '/' then none
    else
      let msRest := spanDigits r2
      if msRest.1.length < 1 || 2 < msRest.1.length then none
      else match msRest.2 with
      | sep2 :: r4 =>
        if sep2 != sep then none
        else
          let dsRest := spanDigits r4
          if dsRest.1.length < 1 || 2 < dsRest.1.length then none
          else
            let y := digitsToNat ysRest.1
            let m := digitsToNat msRest.1
            let d := digitsToNat dsRest.1
            if m < 1 || 12 < m || d < 1 || daysInMonth y m < d then none
            else
              let base := daysFromCivil y m d * 86400
              match dsRest.2 with
              | [] => some base
              | c :: r6 =>
                if c = ' ' || c = 'T' then
                  (parseTimePart r6).map (fun tod => base + tod)
                else none
      | [] => none
  | [] => none

/-- Match of the regex `^(\d{1,2})[^\d](\d{1,2})$` from `parseDate` in
`Dashboard.tsx`: 1-2 digits, one arbitrary non-digit separator, 1-2 digits.
Returns the (month, day) digit values. -/
def mmDdMatch (cs : List Char) : Option (Nat × Nat) :=
  let d1Rest := spanDigits cs
  if d1Rest.1.length < 1 || 2 < d1Rest.1.length then none
  else match d1Rest.2 with
  | c :: r2 =>
    if c.isDigit then none
    else
      let d2Rest := spanDigits r2
      if d2Rest.1.length < 1 || 2 < d2Rest.1.length || !d2Rest.2.isEmpty then
        none
      else some (digitsToNat d1Rest.1, digitsToNat d2Rest.1)
  | [] => none

/-- The `parseDate` helper inside `calculateHospitalizationDays`
(Dashboard.tsx lines 70-87): trim; an "MM-DD"-shaped string is built from the
reference year via `new Date(year, month-1, day)`; otherwise general date
parsing is used, and a parse that lands in the default year 2001 (the bare
"MM-DD" parser quirk) has its year overridden with the reference year.
`none` is an invalid date. -/
def parseDate (dateStr : String) (year : Int) : Option Int :=
  let cleanStr := jsTrim dateStr
  match mmDdMatch cleanStr.data with
  | some md => some (newDateYMD year ((md.1 : Int) - 1) md.2)
  | none =>
    match jsDateParse cleanStr with
    | some t => some (if jsGetFullYear t = 2001 then jsSetFullYear t year else t)
    | none => none

/-- Base year extraction (Dashboard.tsx lines 61-67): the year of the record
timestamp when it parses, otherwise the current calendar year, which the
embedding threads through as the explicit parameter `nowYear` (the source
reads the wall clock). -/
def resolveBaseYear (nowYear : Int) (timestamp : String) : Int :=
  match jsDateParse timestamp with
  | some t => jsGetFullYear t
  | none => nowYear

/-- Math.ceil of `secs / 86400`: the day difference computation of
Dashboard.tsx line 101 (there in milliseconds; the embedding stores seconds). -/
def ceilDays (secs : Int) : Int :=
  -(Int.ediv (-secs) 86400)

/-- The textual fallback (Dashboard.tsx lines 109-111): strip all non-digit
characters, parse the remainder as an integer, accept if < 1000. -/
def hospFallback (valStr : String) : Option Int :=
  let ds := valStr.data.filter Char.isDigit
  if ds.isEmpty then none
  else
    let n := digitsToNat ds
    if n < 1000 then some (n : Int) else none

/-- `calculateHospitalizationDays` after the direct day-count branch
(Dashboard.tsx lines 49-111): empty-admission guard, identical-string
shortcut, date resolution with year-boundary correction, textual fallback.
`valStr` is the already-trimmed end marker. -/
def calcRest (nowYear : Int) (admission valStr timestamp : String) :
    Option Int :=
  if admission = "" then none
  else if valStr = jsTrim admission then some 0
  else
    let isDate := (jsDateParse valStr).isSome || containsStr valStr "-" ||
      containsStr valStr "/"
    if isDate then
      let baseYear := resolveBaseYear nowYear timestamp
      match parseDate admission baseYear, parseDate valStr baseYear with
      | some s, some e =>
        let sAdj := if e < s then jsSetFullYear s (baseYear - 1) else s
        let diffDays := ceilDays (e - sAdj)
        if 0 ≤ diffDays then some diffDays else hospFallback valStr
      | some _, none => hospFallback valStr
      | none, _ => hospFallback valStr
    else hospFallback valStr

/-- Embedding of `calculateHospitalizationDays` (Dashboard.tsx lines 37-112),
the duration normalizer the spec calls `normalizeDuration`.  `nowYear` models
the wall-clock year the source reads when the reference timestamp is
unparseable.  The `string | number` end marker is passed as its string form
(`String(dischargeOrPeriod)` in the source). -/
def calculateHospitalizationDays (nowYear : Int)
    (admission dischargeOrPeriod timestamp : String) : Option Int :=
  if dischargeOrPeriod = "" then none
  else
    let valStr := jsTrim dischargeOrPeriod
    match jsNumber valStr with
    | some numericVal =>
      if numericVal < 1000 then some (Rat.floor numericVal)
      else calcRest nowYear admission valStr timestamp
    | none => calcRest nowYear admission valStr timestamp

/-- The fields of `PatientRecord` (src/types/patient.ts) that the dashboard's
derivation, aggregation and filtering logic reads.  Presentation-only fields
(gender, age, fallHistory, preInjuryADL, neuroSymptoms, ofClassification,
mriImage, medicalHistory, osteoporosisHistory, currentPain, timeToAdmission,
dischargeDate, dischargeDestination, height, weight, bmi) are omitted: no
embedded computation touches them.  The optional `procedure` field is a
string, with absence modelled as the empty string (both are falsy in JS). -/
structure PatientRecord where
  timestamp : String
  id : String
  injuryDate : String
  remarks : String
  admissionDate : String
  newFractures : String
  outcome : String
  procedure : String
  surgeryDate : String
  hospitalizationPeriod : String
  followUpStatus : String
deriving DecidableEq

/-- `String(new Date(p.timestamp).getFullYear())` (Dashboard.tsx line 127);
`String(NaN)` is the literal "NaN" for an unparseable timestamp. -/
def jsYearString (t : String) : String :=
  match jsDateParse t with
  | some d => toString (jsGetFullYear d)
  | none => "NaN"

/-- Year filtering (Dashboard.tsx lines 125-127): pass-through for "All",
otherwise exact match of the stringified timestamp year. -/
def yearFilteredPatients (selectedYear : String) (patients : List PatientRecord) :
    List PatientRecord :=
  if selectedYear = "All" then patients
  else patients.filter (fun p => jsYearString p.timestamp == selectedYear)

/-- The surgery-candidate predicate (Dashboard.tsx lines 131-135). -/
def surgeryCandidatePred (p : PatientRecord) : Bool :=
  containsStr p.outcome "Surgery" || containsStr p.outcome "手術" ||
    containsStr (jsToLower p.remarks) "surgery"

/-- The observation/conservative predicate (Dashboard.tsx lines 136-141). -/
def observationPred (p : PatientRecord) : Bool :=
  containsStr p.outcome "Observation" || containsStr p.outcome "Conservative" ||
    containsStr p.outcome "保存" || containsStr p.outcome "経過観察"

/-- The outcome-only surgical test used by every duration bucket
(Dashboard.tsx lines 186, 196, 206, 227, 258): no remarks check. -/
def isSurgicalOutcome (p : PatientRecord) : Bool :=
  containsStr p.outcome "Surgery" || containsStr p.outcome "手術"

/-- `surgeryCandidates` (Dashboard.tsx lines 131-135). -/
def surgeryCandidates (selectedYear : String) (patients : List PatientRecord) :
    Nat :=
  ((yearFilteredPatients selectedYear patients).filter surgeryCandidatePred).length

/-- `observationPatients` (Dashboard.tsx lines 136-141). -/
def observationPatients (selectedYear : String) (patients : List PatientRecord) :
    Nat :=
  ((yearFilteredPatients selectedYear patients).filter observationPred).length

/-- One step of the find-or-push tally used by `outcomeData` and
`fractureLevelData` (Dashboard.tsx lines 144-153 and 164-171): bump the value
of the first entry with this name, else append a fresh entry.  The keys of the
accumulator are distinct by construction, so the first match is the match. -/
def bumpName (acc : List (String × Nat)) (name : String) : List (String × Nat) :=
  match acc with
  | [] => [(name, 1)]
  | e :: rest =>
    if e.1 = name then (e.1, e.2 + 1) :: rest else e :: bumpName rest name

/-- `outcomeData` (Dashboard.tsx lines 144-153): tally by verbatim outcome,
empty labelled "Unknown", insertion order of first occurrence. -/
def outcomeData (selectedYear : String) (patients : List PatientRecord) :
    List (String × Nat) :=
  (yearFilteredPatients selectedYear patients).foldl
    (fun acc p => bumpName acc (if p.outcome = "" then "Unknown" else p.outcome))
    []

/-- Segments of a character list between delimiter characters (adjacent
delimiters yield empty segments, as `String.prototype.split` on a single
character class does). -/
def splitSegs (p : Char → Bool) : List Char → List (List Char)
  | [] => [[]]
  | c :: rest =>
    if p c then [] :: splitSegs p rest
    else
      match splitSegs p rest with
      | s :: ss => (c :: s) :: ss
      | [] => [[c]]

/-- The multi-value split of `newFractures` (Dashboard.tsx line 160):
`split(/[,、\s]+/).filter(Boolean)`.  Splitting on every delimiter character
and then discarding empty segments is the same as splitting on delimiter
runs. -/
def splitFractures (s : String) : List String :=
  ((splitSegs (fun c => c = ',' || c = '、' || c.isWhitespace) s.data).map
    String.mk).filter (· ≠ "")

/-- Fracture tokens contributed by one record (Dashboard.tsx lines 157-162):
an empty field becomes "Unknown", and so does a field of pure delimiters. -/
def fractureTokens (p : PatientRecord) : List String :=
  let rawLevel := if p.newFractures = "" then "Unknown" else p.newFractures
  let levels := splitFractures rawLevel
  if levels.isEmpty then ["Unknown"] else levels

/-- Insertion step of the stable sort: the element goes in front of the first
list element it compares `le` to, so it stays behind every earlier element of
equal rank. -/
def insertSorted {α : Type} (le : α → α → Bool) (x : α) : List α → List α
  | [] => [x]
  | y :: ys => if le x y then x :: y :: ys else y :: insertSorted le x ys

/-- Stable sort by a boolean total preorder, modelling the (spec-stable, ES2019
onward) JS `Array.prototype.sort` with a consistent numeric comparator.  Any
two stable sorts agree, so insertion sort — which the kernel can evaluate —
stands in for the engine's merge-based sort. -/
def stableSort {α : Type} (le : α → α → Bool) (l : List α) : List α :=
  l.foldr (insertSorted le) []

/-- The sort key of the fracture-level chart (Dashboard.tsx lines 174-180):
T codes 100 + numeric suffix, L codes 200 + numeric suffix, "UNKNOWN" 999,
anything else 300.  `parseInt(...) || 0` turns a NaN (and 0) suffix into 0. -/
def getLevelVal (name : String) : Int :=
  let n := jsToUpper name
  match n.data with
  | 'T' :: rest => 100 + ((jsParseInt (String.mk rest)).getD 0)
  | 'L' :: rest => 200 + ((jsParseInt (String.mk rest)).getD 0)
  | _ => if n = "UNKNOWN" then 999 else 300

/-- `fractureLevelData` (Dashboard.tsx lines 155-182): tally every token of
every record, then sort ascending by `getLevelVal` (the JS comparator
`getLevelVal(a) - getLevelVal(b)` under the stable Array.prototype.sort,
modelled by `stableSort`). -/
def fractureLevelData (selectedYear : String) (patients : List PatientRecord) :
    List (String × Nat) :=
  stableSort (fun a b => getLevelVal a.1 ≤ getLevelVal b.1)
    ((yearFilteredPatients selectedYear patients).foldl
      (fun acc p => (fractureTokens p).foldl bumpName acc) [])

/-- `p.hospitalizationPeriod || p.followUpStatus` (Dashboard.tsx lines 187,
197, 208, 229): the JS or-else on a falsy (empty) first operand. -/
def dischargeValOf (p : PatientRecord) : String :=
  if p.hospitalizationPeriod = "" then p.followUpStatus
  else p.hospitalizationPeriod

/-- Length-of-stay normalization of one record (Dashboard.tsx line 187/197). -/
def stayDaysOf (nowYear : Int) (p : PatientRecord) : Option Int :=
  calculateHospitalizationDays nowYear p.admissionDate (dischargeValOf p)
    p.timestamp

/-- `surgeryHospitalizationDays` (Dashboard.tsx lines 185-188); mapping then
dropping nulls is written as `filterMap`. -/
def surgeryHospitalizationDays (nowYear : Int) (selectedYear : String)
    (patients : List PatientRecord) : List Int :=
  ((yearFilteredPatients selectedYear patients).filter isSurgicalOutcome).filterMap
    (stayDaysOf nowYear)

/-- `conservativeHospitalizationDays` (Dashboard.tsx lines 195-198): the
complement bucket, selected by the negated outcome-only test. -/
def conservativeHospitalizationDays (nowYear : Int) (selectedYear : String)
    (patients : List PatientRecord) : List Int :=
  ((yearFilteredPatients selectedYear patients).filter
      (fun p => !isSurgicalOutcome p)).filterMap (stayDaysOf nowYear)

/-- JS `Math.round`: round half toward positive infinity. -/
def jsRound (q : ℚ) : Int :=
  Rat.floor (ratAdd q (mkRat 1 2))

/-- The average pattern of Dashboard.tsx (lines 190-192 etc.):
`list.length > 0 ? Math.round(list.reduce((a, b) => a + b, 0) / list.length) : 0`. -/
def jsAverage (l : List ℚ) : Int :=
  if l.isEmpty then 0
  else jsRound (ratDiv (l.foldl ratAdd 0) (mkRat l.length 1))

/-- `avgHospitalizationSurgery` (Dashboard.tsx lines 190-192). -/
def avgHospitalizationSurgery (nowYear : Int) (selectedYear : String)
    (patients : List PatientRecord) : Int :=
  jsAverage ((surgeryHospitalizationDays nowYear selectedYear patients).map
    (fun n => mkRat n 1))

/-- `avgHospitalizationConservative` (Dashboard.tsx lines 200-202). -/
def avgHospitalizationConservative (nowYear : Int) (selectedYear : String)
    (patients : List PatientRecord) : Int :=
  jsAverage ((conservativeHospitalizationDays nowYear selectedYear patients).map
    (fun n => mkRat n 1))

/-- The per-record post-operative-days computation (Dashboard.tsx lines
207-218, repeated verbatim at 229-240 and 519-539): when the discharge-side
value is numeric below 1000 it is read as a total stay and the pre-operative
interval is subtracted when that interval is computable; otherwise the days
from surgery date to the discharge value.  `Number(dischargeVal)` is kept
unfloored, hence the ℚ result. -/
def postOpCompute (nowYear : Int) (p : PatientRecord) : Option ℚ :=
  let dischargeVal := dischargeValOf p
  let surgeryToVal : Option ℚ :=
    (calculateHospitalizationDays nowYear p.surgeryDate dischargeVal
      p.timestamp).map (fun n => mkRat n 1)
  match jsNumber (jsTrim dischargeVal) with
  | some q =>
    if q < 1000 then
      match calculateHospitalizationDays nowYear p.admissionDate p.surgeryDate
          p.timestamp with
      | some preOpDays => some (ratSub q (mkRat preOpDays 1))
      | none => surgeryToVal
    else surgeryToVal
  | none => surgeryToVal

/-- `postOpDaysList` (Dashboard.tsx lines 205-219): surgical records only,
nulls and negative values dropped. -/
def postOpDaysList (nowYear : Int) (selectedYear : String)
    (patients : List PatientRecord) : List ℚ :=
  (((yearFilteredPatients selectedYear patients).filter
      isSurgicalOutcome).filterMap (postOpCompute nowYear)).filter
    (fun d => 0 ≤ d)

/-- `avgPostOpDays` (Dashboard.tsx lines 221-223). -/
def avgPostOpDays (nowYear : Int) (selectedYear : String)
    (patients : List PatientRecord) : Int :=
  jsAverage (postOpDaysList nowYear selectedYear patients)

/-- One accumulator entry of `procedurePostOpData` (Dashboard.tsx line 249). -/
structure ProcEntry where
  name : String
  totalDays : ℚ
  count : Nat
  value : ℚ
deriving DecidableEq

/-- The find-or-push step of `procedurePostOpData` (Dashboard.tsx lines
242-251): on update the displayed value becomes the rounded running mean; a
fresh entry shows the raw first contribution. -/
def bumpProc (acc : List ProcEntry) (name : String) (days : ℚ) :
    List ProcEntry :=
  match acc with
  | [] => [⟨name, days, 1, days⟩]
  | e :: rest =>
    if e.name = name then
      let total := ratAdd e.totalDays days
      let cnt := e.count + 1
      ⟨e.name, total, cnt, mkRat (jsRound (ratDiv total (mkRat cnt 1))) 1⟩ :: rest
    else e :: bumpProc rest name days

/-- `procedurePostOpData` (Dashboard.tsx lines 226-254): surgical records with
a non-empty procedure, the post-op computation grouped by procedure, sorted by
descending displayed value. -/
def procedurePostOpData (nowYear : Int) (selectedYear : String)
    (patients : List PatientRecord) : List ProcEntry :=
  stableSort (fun a b => b.value ≤ a.value)
    (((yearFilteredPatients selectedYear patients).filter
        (fun p => isSurgicalOutcome p && p.procedure ≠ "")).foldl
      (fun acc p =>
        match postOpCompute nowYear p with
        | some d => if 0 ≤ d then bumpProc acc p.procedure d else acc
        | none => acc) [])

/-- `timeToSurgeryList` (Dashboard.tsx lines 257-263): injury date to surgery
date over surgical records, nulls and negatives dropped. -/
def timeToSurgeryList (nowYear : Int) (selectedYear : String)
    (patients : List PatientRecord) : List Int :=
  ((((yearFilteredPatients selectedYear patients).filter
      isSurgicalOutcome).filterMap
    (fun p => calculateHospitalizationDays nowYear p.injuryDate p.surgeryDate
      p.timestamp)).filter (fun d => 0 ≤ d))

/-- `avgTimeToSurgery` (Dashboard.tsx lines 265-267). -/
def avgTimeToSurgery (nowYear : Int) (selectedYear : String)
    (patients : List PatientRecord) : Int :=
  jsAverage ((timeToSurgeryList nowYear selectedYear patients).map
    (fun n => mkRat n 1))

/-- The free-text filter predicate (Dashboard.tsx lines 269-273):
case-insensitive substring match on id, outcome and newFractures. -/
def textFilterPred (filter : String) (p : PatientRecord) : Bool :=
  containsStr (jsToLower p.id) (jsToLower filter) ||
    containsStr (jsToLower p.outcome) (jsToLower filter) ||
    containsStr (jsToLower p.newFractures) (jsToLower filter)

/-- `filteredPatients` (Dashboard.tsx lines 269-273): the visible table list,
text filtering applied after year filtering. -/
def filteredPatients (filter : String) (selectedYear : String)
    (patients : List PatientRecord) : List PatientRecord :=
  (yearFilteredPatients selectedYear patients).filter (textFilterPred filter)

/-- The read-only view model one rendering cycle exposes (Dashboard.tsx lines
130-273): summary counts, duration averages, categorical distributions and
the visible record list. -/
structure DashboardView where
  totalPatients : Nat
  surgeryCandidates : Nat
  observationPatients : Nat
  outcomeData : List (String × Nat)
  fractureLevelData : List (String × Nat)
  avgHospitalizationSurgery : Int
  avgHospitalizationConservative : Int
  avgPostOpDays : Int
  procedurePostOpData : List ProcEntry
  avgTimeToSurgery : Int
  filteredPatients : List PatientRecord

/-- Assembly of the full view model from the inputs of one rendering cycle:
the record list, the year selection and the free-text filter (plus the
wall-clock year parameter `nowYear` of the embedding). -/
def dashboardView (nowYear : Int) (patients : List PatientRecord)
    (selectedYear filter : String) : DashboardView where
  totalPatients := (yearFilteredPatients selectedYear patients).length
  surgeryCandidates := surgeryCandidates selectedYear patients
  observationPatients := observationPatients selectedYear patients
  outcomeData := outcomeData selectedYear patients
  fractureLevelData := fractureLevelData selectedYear patients
  avgHospitalizationSurgery := avgHospitalizationSurgery nowYear selectedYear patients
  avgHospitalizationConservative :=
    avgHospitalizationConservative nowYear selectedYear patients
  avgPostOpDays := avgPostOpDays nowYear selectedYear patients
  procedurePostOpData := procedurePostOpData nowYear selectedYear patients
  avgTimeToSurgery := avgTimeToSurgery nowYear selectedYear patients
  filteredPatients := filteredPatients filter selectedYear patients

/-- The bundled fallback dataset `MOCK_PATIENTS` of src/services/dataService.ts
(lines 33-138), projected to the modelled fields.  The literals omit a
`procedure` entry, so it reads as `undefined` there, modelled as "". -/
def MOCK_PATIENTS : List PatientRecord :=
  [{ timestamp := "2023/10/01 10:00:00", id := "P001",
     injuryDate := "2023/09/25", remarks := "Severe pain on motion",
     admissionDate := "2023/10/01", newFractures := "L1", outcome := "Surgery",
     procedure := "", surgeryDate := "2023/10/02",
     hospitalizationPeriod := "", followUpStatus := "Pending" },
   { timestamp := "2023/10/05 14:30:00", id := "P002",
     injuryDate := "2023/10/03",
     remarks := "Considering surgery due to neuro deficit",
     admissionDate := "2023/10/05", newFractures := "T12", outcome := "Surgery",
     procedure := "", surgeryDate := "2023/10/06",
     hospitalizationPeriod := "", followUpStatus := "Scheduled for OP" },
   { timestamp := "2023/10/10 09:15:00", id := "P003",
     injuryDate := "2023/10/08", remarks := "Conservative treatment",
     admissionDate := "2023/10/10", newFractures := "L3",
     outcome := "Conservative", procedure := "", surgeryDate := "",
     hospitalizationPeriod := "14 days", followUpStatus := "Discharged" },
   { timestamp := "2023/10/12 11:00:00", id := "P004",
     injuryDate := "2023/10/10", remarks := "Observation",
     admissionDate := "2023/10/12", newFractures := "T11",
     outcome := "Observation", procedure := "", surgeryDate := "",
     hospitalizationPeriod := "", followUpStatus := "In Hospital" }]

/-- The possible outcomes of the one data fetch of `fetchPatients`
(src/services/dataService.ts lines 140-161): the request may throw (network or
JSON parse failure, the latter modelled as a `none` body of an ok response),
or return a response with an ok/non-ok status and a decoded record list. -/
inductive FetchResult where
  | networkError : FetchResult
  | response (ok : Bool) (body : Option (List PatientRecord)) : FetchResult
deriving DecidableEq

/-- Embedding of `fetchPatients` (src/services/dataService.ts lines 140-161).
The configured URL and the fetch outcome are explicit inputs; the try/catch
makes the function total — every failure path returns `MOCK_PATIENTS`, so no
exception reaches the caller, which the `List` (rather than `Except`) result
type expresses.  A missing URL skips the fetch and returns the mock data
directly. -/
def fetchPatients (apiUrl : Option String) (result : FetchResult) :
    List PatientRecord :=
  match apiUrl with
  | none => MOCK_PATIENTS
  | some _ =>
    match result with
    | .networkError => MOCK_PATIENTS
    | .response ok body =>
      if ok then
        match body with
        | some data => data
        | none => MOCK_PATIENTS
      else MOCK_PATIENTS

/-- A record is a failing data fetch in the sense of the spec: a thrown
network/parse error or a non-2xx response. -/
def failingFetch (result : FetchResult) : Prop :=
  result = .networkError ∨ (∃ body, result = .response false body) ∨
    result = .response true none

/-- A surgical record whose discharge-side fields are both empty and whose
surgery happened on the admission day; used to exhibit the empty-string-as-zero
slip in the post-operative derivation. -/
def emptyDischargeSurgicalRecord : PatientRecord :=
  { timestamp := "2023/10/01 10:00:00", id := "P100",
    injuryDate := "2023/09/25", remarks := "", admissionDate := "2023/10/01",
    newFractures := "L1", outcome := "Surgery", procedure := "BKP",
    surgeryDate := "2023/10/01", hospitalizationPeriod := "",
    followUpStatus := "" }

/-- A record with a given `newFractures` value and no other data; used to
exhibit the fracture-level sort order. -/
def fractureSortRecord (nf : String) : PatientRecord :=
  { timestamp := "2023/10/01 10:00:00", id := "F", injuryDate := "",
    remarks := "", admissionDate := "", newFractures := nf, outcome := "",
    procedure := "", surgeryDate := "", hospitalizationPeriod := "",
    followUpStatus := "" }

/-- A surgical record whose discharge-side value is the pure day count "14"
and whose surgery date is empty, so the pre-operative interval is
indeterminate; used to instantiate the passthrough property. -/
def passthroughRecord : PatientRecord :=
  { timestamp := "2023/10/01 10:00:00", id := "P200",
    injuryDate := "2023/09/25", remarks := "", admissionDate := "2023/10/01",
    newFractures := "L1", outcome := "Surgery", procedure := "",
    surgeryDate := "", hospitalizationPeriod := "14", followUpStatus := "" }

/-- Modelled from the spec: the year-boundary rule read literally as "the
start date's year is decremented by one" — `calcRest` with
`jsSetFullYear s (jsGetFullYear s - 1)` in place of the source's
`jsSetFullYear s (baseYear - 1)`.  Used only to exhibit that this reading
diverges from the code when the start date resolved outside the base year. -/
def calcRestSpecDecrement (nowYear : Int) (admission valStr timestamp : String) :
    Option Int :=
  if admission = "" then none
  else if valStr = jsTrim admission then some 0
  else
    let isDate := (jsDateParse valStr).isSome || containsStr valStr "-" ||
      containsStr valStr "/"
    if isDate then
      let baseYear := resolveBaseYear nowYear timestamp
      match parseDate admission baseYear, parseDate valStr baseYear with
      | some s, some e =>
        let sAdj := if e < s then jsSetFullYear s (jsGetFullYear s - 1) else s
        let diffDays := ceilDays (e - sAdj)
        if 0 ≤ diffDays then some diffDays else hospFallback valStr
      | some _, none => hospFallback valStr
      | none, _ => hospFallback valStr
    else hospFallback valStr

/-- Modelled from the spec: the whole normalizer under the literal
"decrement the start date's year" reading of the year-boundary rule. -/
def calcHospSpecDecrement (nowYear : Int)
    (admission dischargeOrPeriod timestamp : String) : Option Int :=
  if dischargeOrPeriod = "" then none
  else
    let valStr := jsTrim dischargeOrPeriod
    match jsNumber valStr with
    | some numericVal =>
      if numericVal < 1000 then some (Rat.floor numericVal)
      else calcRestSpecDecrement nowYear admission valStr timestamp
    | none => calcRestSpecDecrement nowYear admission valStr timestamp

/-- A record with empty outcome and remarks that do not mention surgery; it
belongs to neither classification bucket. -/
def emptyOutcomeRecord : PatientRecord :=
  { timestamp := "", id := "", injuryDate := "", remarks := "follow-up later",
    admissionDate := "", newFractures := "", outcome := "", procedure := "",
    surgeryDate := "", hospitalizationPeriod := "", followUpStatus := "" }

/-- Total value tallied under a bucket name: the sum of the values of the
entries carrying that name (each name occurs at most once in the lists the
tally builds, but the sum form is permutation-invariant, which the sort step
uses). -/
def bucketCount : List (String × Nat) → String → Nat
  | [], _ => 0
  | e :: rest, n => (if e.1 = n then e.2 else 0) + bucketCount rest n

example : jsNumber "" = some 0 := by decide
example : jsNumber "-5" = some (-5) := by decide
example : jsNumber "14.5" = some (mkRat 29 2) := by decide
example : jsNumber "01-03" = none := by decide
example : jsTrim "  ab " = "ab" := by decide
example : containsStr "abcd" "bc" = true := by decide
example : daysFromCivil 1970 1 1 = 0 := by decide
example : daysFromCivil 2024 1 3 - daysFromCivil 2023 12 28 = 6 := by decide
example : civilFromDays 0 = (1970, 1, 1) := by decide
example : jsDateParse "2024/01/05 10:00:00" =
    some ((daysFromCivil 2024 1 5) * 86400 + 36000) := by decide
example : jsDateParse "01-03" = none := by decide
example : jsDateParse "2023-02-29" = none := by decide
example : calculateHospitalizationDays 2025 "2023/10/10" "2023/10/10" "x" =
    some 0 := by decide
example : calculateHospitalizationDays 2025 "2023/10/01" "" "x" = none := by
  decide
example : getLevelVal "T150" = 250 := by decide
example : getLevelVal "L1" = 201 := by decide
example : getLevelVal "X9" = 300 := by decide
example : getLevelVal "Unknown" = 999 := by decide
example : (fractureLevelData "All" [fractureSortRecord "L1",
    fractureSortRecord "T5"]).map Prod.fst = ["T5", "L1"] := by decide
example : splitFractures "L1, L2" = ["L1", "L2"] := by decide
example : fractureTokens (fractureSortRecord "、 ,") = ["Unknown"] := by decide
example : fractureLevelData "All" [fractureSortRecord "L1, L2",
    fractureSortRecord "L2"] = [("L1", 1), ("L2", 2)] := by decide
example : yearFilteredPatients "2023" [passthroughRecord] =
    [passthroughRecord] := by decide
example : yearFilteredPatients "2022" [passthroughRecord] = [] := by decide

theorem ratAdd_eq (a b : ℚ) : ratAdd a b = a + b := by
  rw [ratAdd, Rat.mkRat_eq_divInt, Rat.divInt_eq_div]
  have ha : ((a.den : ℚ)) ≠ 0 := Nat.cast_ne_zero.mpr a.den_nz
  have hb : ((b.den : ℚ)) ≠ 0 := Nat.cast_ne_zero.mpr b.den_nz
  conv_rhs => rw [← Rat.num_div_den a, ← Rat.num_div_den b]
  push_cast
  field_simp

theorem ratSub_eq (a b : ℚ) : ratSub a b = a - b := by
  rw [ratSub, Rat.mkRat_eq_divInt, Rat.divInt_eq_div]
  have ha : ((a.den : ℚ)) ≠ 0 := Nat.cast_ne_zero.mpr a.den_nz
  have hb : ((b.den : ℚ)) ≠ 0 := Nat.cast_ne_zero.mpr b.den_nz
  conv_rhs => rw [← Rat.num_div_den a, ← Rat.num_div_den b]
  push_cast
  field_simp
  ring

theorem ratDiv_eq (a b : ℚ) : ratDiv a b = a / b := by
  rcases eq_or_ne b 0 with rfl | hb0
  · simp [ratDiv]
  · have hbn : b.num ≠ 0 := Rat.num_ne_zero.mpr hb0
    rw [ratDiv, Rat.mkRat_eq_divInt, Rat.divInt_eq_div]
    have ha : ((a.den : ℚ)) ≠ 0 := Nat.cast_ne_zero.mpr a.den_nz
    have hb : ((b.den : ℚ)) ≠ 0 := Nat.cast_ne_zero.mpr b.den_nz
    have hbq : ((b.num : ℚ)) ≠ 0 := Int.cast_ne_zero.mpr hbn
    have h : (b.num.sign : ℚ) * (b.num : ℚ) = |(b.num : ℚ)| := by
      rcases lt_trichotomy b.num 0 with hn | hn | hn
      · rw [Int.sign_eq_neg_one_of_neg hn,
          abs_of_neg (show (b.num : ℚ) < 0 from by exact_mod_cast hn)]
        push_cast
        ring
      · exact absurd hn hbn
      · rw [Int.sign_eq_one_of_pos hn,
          abs_of_pos (show (0 : ℚ) < (b.num : ℚ) from by exact_mod_cast hn)]
        push_cast
        ring
    conv_rhs => rw [← Rat.num_div_den a, ← Rat.num_div_den b]
    push_cast
    field_simp
    linear_combination ((a.num : ℚ) * (b.den : ℚ) * (a.den : ℚ)) * h

theorem ratFloor_mkRat_one (n : Int) : Rat.floor (mkRat n 1) = n := by
  have h : Rat.floor (mkRat n 1) = ⌊(mkRat n 1 : ℚ)⌋ := rfl
  rw [h, Rat.mkRat_one, Int.floor_intCast]

theorem ratFloor_nonneg {q : ℚ} (h : 0 ≤ q) : 0 ≤ Rat.floor q := by
  have h2 : Rat.floor q = ⌊q⌋ := rfl
  rw [h2]
  exact Int.floor_nonneg.mpr h

theorem tails_any_nil_isPrefixOf (l : List Char) :
    (l.tails.any fun t => List.isPrefixOf ([] : List Char) t) = true := by
  induction l with
  | nil => rfl
  | cons c cs ih => simp [List.tails, List.isPrefixOf]

theorem containsStr_empty_needle (hay : String) : containsStr hay "" = true :=
  tails_any_nil_isPrefixOf hay.data

theorem textFilterPred_empty (p : PatientRecord) : textFilterPred "" p = true := by
  have h : jsToLower "" = "" := rfl
  simp [textFilterPred, h, containsStr_empty_needle]

theorem hospFallback_nonneg {v : String} {n : Int}
    (h : hospFallback v = some n) : 0 ≤ n := by
  unfold hospFallback at h
  dsimp only at h
  split at h
  · exact absurd h (by simp)
  · split at h
    · cases h
      exact Int.natCast_nonneg _
    · exact absurd h (by simp)

theorem calcRest_nonneg {nowYear : Int} {a v t : String} {n : Int}
    (h : calcRest nowYear a v t = some n) : 0 ≤ n := by
  unfold calcRest at h
  split at h
  · exact absurd h (by simp)
  · split at h
    · cases h
      exact le_refl 0
    · dsimp only at h
      split at h
      · split at h
        · split at h
          · split at h
            · cases h
              assumption
            · exact hospFallback_nonneg h
          · split at h
            · cases h
              assumption
            · exact hospFallback_nonneg h
        · exact hospFallback_nonneg h
        · exact hospFallback_nonneg h
      · exact hospFallback_nonneg h

theorem insertSorted_perm {α : Type} (le : α → α → Bool) (x : α) (l : List α) :
    (insertSorted le x l).Perm (x :: l) := by
  induction l with
  | nil => exact List.Perm.refl _
  | cons y ys ih =>
    unfold insertSorted
    split
    · exact List.Perm.refl _
    · exact (ih.cons y).trans (List.Perm.swap x y ys)

theorem stableSort_perm {α : Type} (le : α → α → Bool) (l : List α) :
    (stableSort le l).Perm l := by
  induction l with
  | nil => exact List.Perm.refl _
  | cons x xs ih => exact (insertSorted_perm le x _).trans (ih.cons x)

theorem mem_insertSorted {α : Type} {le : α → α → Bool} {x z : α}
    {l : List α} : z ∈ insertSorted le x l ↔ z = x ∨ z ∈ l := by
  have h := (insertSorted_perm le x l).mem_iff (a := z)
  simpa using h

theorem insertSorted_pairwise {α : Type} {le : α → α → Bool}
    (htot : ∀ a b, le a b = true ∨ le b a = true)
    (htrans : ∀ a b c, le a b = true → le b c = true → le a c = true)
    (x : α) {l : List α} (hl : l.Pairwise (fun a b => le a b = true)) :
    (insertSorted le x l).Pairwise (fun a b => le a b = true) := by
  induction l with
  | nil => simp [insertSorted]
  | cons y ys ih =>
    rcases List.pairwise_cons.mp hl with ⟨hy, hys⟩
    unfold insertSorted
    split
    · rename_i hxy
      refine List.pairwise_cons.mpr ⟨?_, hl⟩
      intro z hz
      rcases List.mem_cons.mp hz with rfl | hz
      · exact hxy
      · exact htrans x y z hxy (hy z hz)
    · rename_i hxy
      have hyx : le y x = true := (htot x y).resolve_left hxy
      refine List.pairwise_cons.mpr ⟨?_, ih hys⟩
      intro z hz
      rcases mem_insertSorted.mp hz with rfl | hz
      · exact hyx
      · exact hy z hz

theorem stableSort_pairwise {α : Type} {le : α → α → Bool}
    (htot : ∀ a b, le a b = true ∨ le b a = true)
    (htrans : ∀ a b c, le a b = true → le b c = true → le a c = true)
    (l : List α) :
    (stableSort le l).Pairwise (fun a b => le a b = true) := by
  induction l with
  | nil => simp [stableSort]
  | cons x xs ih => exact insertSorted_pairwise htot htrans x ih

theorem bucketCount_perm {l1 l2 : List (String × Nat)} (h : l1.Perm l2)
    (n : String) : bucketCount l1 n = bucketCount l2 n := by
  induction h with
  | nil => rfl
  | cons x _ ih => simp only [bucketCount, ih]
  | swap x y l => simp only [bucketCount]; omega
  | trans _ _ ih1 ih2 => exact ih1.trans ih2

theorem bucketCount_bumpName (acc : List (String × Nat)) (x n : String) :
    bucketCount (bumpName acc x) n =
      bucketCount acc n + (if x = n then 1 else 0) := by
  induction acc with
  | nil => simp [bumpName, bucketCount]
  | cons e rest ih =>
    by_cases he : e.1 = x
    · simp only [bumpName, if_pos he, bucketCount, he]
      split_ifs <;> omega
    · simp only [bumpName, if_neg he, bucketCount, ih]
      omega

theorem bucketCount_foldl_bumpName (ts : List String)
    (acc : List (String × Nat)) (n : String) :
    bucketCount (ts.foldl bumpName acc) n = bucketCount acc n + ts.count n := by
  induction ts generalizing acc with
  | nil => simp
  | cons t ts ih =>
    simp only [List.foldl_cons, ih, bucketCount_bumpName, List.count_cons,
      beq_iff_eq]
    omega

theorem foldl_tokens_flatMap (P : List PatientRecord)
    (acc : List (String × Nat)) :
    P.foldl (fun acc p => (fractureTokens p).foldl bumpName acc) acc =
      (P.flatMap fractureTokens).foldl bumpName acc := by
  induction P generalizing acc with
  | nil => rfl
  | cons p ps ih =>
    simp only [List.foldl_cons, List.flatMap_cons, List.foldl_append, ih]

/-- C1 (counterexample): the normalizer does return a negative number as its
final result: the end marker "-5" parses as the number -5, which is below the
1000 cutoff, so the direct day-count branch returns -5. -/
theorem calcHosp_negative_final_value :
    calculateHospitalizationDays 2025 "2023/10/01" "-5" "2023/10/05 00:00:00" =
      some (-5) ∧ (-5 : Int) < 0 := by decide

/-- C1 (amended): the normalizer is total — for every input triple (plus the
wall-clock year) it computes either an integer or the indeterminate `none`
without any exceptional outcome — and every resolution rule except the direct
day-count branch only returns non-negative values, so any negative final
result is the floor of a negative number parsed from the trimmed end marker
by that branch. -/
theorem calcHosp_final_value_shape (nowYear : Int) (a v t : String) (n : Int)
    (h : calculateHospitalizationDays nowYear a v t = some n) :
    0 ≤ n ∨ ∃ q : ℚ, jsNumber (jsTrim v) = some q ∧ q < 0 ∧ n = Rat.floor q := by
  by_cases hv : v = ""
  · rw [calculateHospitalizationDays, if_pos hv] at h
    cases h
  · cases hq : jsNumber (jsTrim v) with
    | none =>
      rw [calculateHospitalizationDays, if_neg hv] at h
      simp only [hq] at h
      exact Or.inl (calcRest_nonneg h)
    | some q =>
      rw [calculateHospitalizationDays, if_neg hv] at h
      simp only [hq] at h
      by_cases hlt : q < 1000
      · rw [if_pos hlt] at h
        cases h
        rcases le_or_lt 0 q with h0 | h0
        · exact Or.inl (ratFloor_nonneg h0)
        · exact Or.inr ⟨q, rfl, h0, rfl⟩
      · rw [if_neg hlt] at h
        exact Or.inl (calcRest_nonneg h)

/-- C1 (witness): the shape theorem instantiated at a concrete input that
produces a value. -/
theorem calcHosp_final_value_shape_witness :
    0 ≤ (14 : Int) ∨ ∃ q : ℚ, jsNumber (jsTrim "14") = some q ∧ q < 0 ∧
      (14 : Int) = Rat.floor q :=
  calcHosp_final_value_shape 2025 "" "14" "" 14 (by decide)

/-- C2 (code bug evaluation): a surgical record whose `hospitalizationPeriod`
and `followUpStatus` are both empty is not excluded from the post-operative
aggregates.  `Number("") = 0` passes the `< 1000` total-days test, the
pre-operative interval (same-day admission and surgery) is 0, and the record
contributes 0 − 0 = 0 to `postOpDaysList`, to the average's population and to
the per-procedure buckets — the empty discharge-side value is computed with as
the number 0, against the "empty means unknown, never zero" invariant. -/
theorem postOp_includes_empty_discharge_as_zero :
    dischargeValOf emptyDischargeSurgicalRecord = "" ∧
    isSurgicalOutcome emptyDischargeSurgicalRecord = true ∧
    postOpCompute 2025 emptyDischargeSurgicalRecord = some 0 ∧
    postOpDaysList 2025 "All" [emptyDischargeSurgicalRecord] = [0] ∧
    avgPostOpDays 2025 "All" [emptyDischargeSurgicalRecord] = 0 ∧
    procedurePostOpData 2025 "All" [emptyDischargeSurgicalRecord] =
      [⟨"BKP", 0, 1, 0⟩] := by decide

/-- C3 (counterexample): the fracture-level buckets are not ordered "all T,
then all L, then Unknown, then others".  For the records with levels "T150",
"L1", "X9" and "" the code produces L1 before T150 (the key of T150 is
100 + 150 = 250, above L1's 201) and "Unknown" after the other code "X9"
(keys 999 and 300), not the claimed T150, L1, Unknown, X9. -/
theorem fractureLevelData_order_counterexample :
    (fractureLevelData "All" [fractureSortRecord "T150", fractureSortRecord "L1",
      fractureSortRecord "X9", fractureSortRecord ""]).map Prod.fst =
      ["L1", "T150", "X9", "Unknown"] ∧
    ["L1", "T150", "X9", "Unknown"] ≠ ["T150", "L1", "Unknown", "X9"] := by
  decide

/-- C3 (amended): the distribution is built by splitting each record's
`newFractures` on comma, Japanese comma or whitespace, tallying each non-empty
token independently (an empty field contributes to "Unknown"), and the buckets
are sorted ascending by the key `getLevelVal` — 100 + numeric suffix for
T-codes, 200 + numeric suffix for L-codes, 300 for other codes, 999 for
"Unknown" — so T-codes come before L-codes only while the T suffix is within
100 of the L suffix, and "Unknown" comes after the other codes, not before. -/
theorem fractureLevelData_counts_and_sorted (year : String)
    (P : List PatientRecord) :
    (∀ name, bucketCount (fractureLevelData year P) name =
      ((yearFilteredPatients year P).flatMap fractureTokens).count name) ∧
    (fractureLevelData year P).Pairwise
      (fun a b => getLevelVal a.1 ≤ getLevelVal b.1) := by
  constructor
  · intro name
    unfold fractureLevelData
    rw [bucketCount_perm (stableSort_perm _ _) name, foldl_tokens_flatMap,
      bucketCount_foldl_bumpName]
    simp [bucketCount]
  · have htot : ∀ a b : String × Nat,
        (decide (getLevelVal a.1 ≤ getLevelVal b.1)) = true ∨
        (decide (getLevelVal b.1 ≤ getLevelVal a.1)) = true := by
      intro a b
      rcases le_total (getLevelVal a.1) (getLevelVal b.1) with h | h
      · exact Or.inl (decide_eq_true h)
      · exact Or.inr (decide_eq_true h)
    have htrans : ∀ a b c : String × Nat,
        (decide (getLevelVal a.1 ≤ getLevelVal b.1)) = true →
        (decide (getLevelVal b.1 ≤ getLevelVal c.1)) = true →
        (decide (getLevelVal a.1 ≤ getLevelVal c.1)) = true := by
      intro a b c hab hbc
      exact decide_eq_true (le_trans (of_decide_eq_true hab)
        (of_decide_eq_true hbc))
    exact (stableSort_pairwise htot htrans _).imp (fun h => of_decide_eq_true h)

/-- C4 (counterexample): with an empty start marker the textual fallback is
not reached: for the non-date end marker "abc12def" the fallback would
produce 12, but the normalizer returns the indeterminate `none` because the
empty-admission guard fires first — refuting "regardless of whether the start
marker is empty". -/
theorem textual_fallback_empty_admission_counterexample :
    calculateHospitalizationDays 2025 "" "abc12def" "x" = none ∧
    hospFallback (jsTrim "abc12def") = some 12 := by decide

/-- C4 (amended): for every input whose end marker is non-empty, does not
parse as a number below 1000, is not verbatim equal to the trimmed start
marker, and cannot be resolved as a date pair with non-negative adjusted day
difference, and whose start marker is non-empty, the normalizer returns the
textual fallback: strip the non-digit characters of the trimmed end marker,
parse the remainder as an integer, return it when below 1000, else
indeterminate.  (An empty start marker instead short-circuits to
indeterminate before the fallback.) -/
theorem calcHosp_textual_fallback_applies (nowYear : Int) (a v t : String)
    (hv : v ≠ "") (ha : a ≠ "")
    (hnum : ∀ q : ℚ, jsNumber (jsTrim v) = some q → 1000 ≤ q)
    (hne : jsTrim v ≠ jsTrim a)
    (hdate : ∀ s e, parseDate a (resolveBaseYear nowYear t) = some s →
      parseDate (jsTrim v) (resolveBaseYear nowYear t) = some e →
      ceilDays (e - (if e < s then
        jsSetFullYear s (resolveBaseYear nowYear t - 1) else s)) < 0) :
    calculateHospitalizationDays nowYear a v t = hospFallback (jsTrim v) := by
  have hrest : calcRest nowYear a (jsTrim v) t = hospFallback (jsTrim v) := by
    unfold calcRest
    rw [if_neg ha, if_neg hne]
    dsimp only
    split
    · cases hs : parseDate a (resolveBaseYear nowYear t) with
      | none => simp only [hs]
      | some s =>
        cases he : parseDate (jsTrim v) (resolveBaseYear nowYear t) with
        | none => simp only [hs, he]
        | some e =>
          simp only [hs, he]
          rw [if_neg (not_le.mpr (hdate s e hs he))]
    · rfl
  rw [calculateHospitalizationDays, if_neg hv]
  cases hq : jsNumber (jsTrim v) with
  | none => simp only [hq, hrest]
  | some q =>
    simp only [hq]
    rw [if_neg (not_lt.mpr (hnum q hq))]
    exact hrest

/-- C4 (witness): the fallback theorem instantiated at the end marker
"5 days" with a non-empty start marker, yielding the stripped integer 5. -/
theorem calcHosp_textual_fallback_applies_witness :
    calculateHospitalizationDays 2025 "2023/10/01" "5 days" "" = some 5 :=
  (calcHosp_textual_fallback_applies 2025 "2023/10/01" "5 days" ""
    (by decide) (by decide)
    (fun q h => absurd ((show jsNumber (jsTrim "5 days") = none by
      decide).symm.trans h) (by simp))
    (by decide)
    (fun s e hs he => absurd ((show parseDate (jsTrim "5 days")
      (resolveBaseYear 2025 "") = none by decide).symm.trans he)
      (by simp))).trans (by decide)

/-- C5: over every year-filtered list the surgery-candidate count tallies
exactly the records whose outcome contains "Surgery" or "手術" or whose
lowercased remarks contain "surgery", and the conservative/observation count
exactly those whose outcome contains "Observation", "Conservative", "保存" or
"経過観察"; a record with empty outcome and no remarks match belongs to
neither; and the stay-duration partition classifies by the outcome markers
only — outcome-equal records classify alike regardless of remarks, and an
empty-outcome record is non-surgical there. -/
theorem outcome_classification_partition (year : String)
    (P : List PatientRecord) :
    (surgeryCandidates year P = ((yearFilteredPatients year P).filter (fun p =>
        containsStr p.outcome "Surgery" || containsStr p.outcome "手術" ||
        containsStr (jsToLower p.remarks) "surgery")).length) ∧
    (observationPatients year P = ((yearFilteredPatients year P).filter (fun p =>
        containsStr p.outcome "Observation" ||
        containsStr p.outcome "Conservative" ||
        containsStr p.outcome "保存" ||
        containsStr p.outcome "経過観察")).length) ∧
    (∀ p : PatientRecord, p.outcome = "" →
      containsStr (jsToLower p.remarks) "surgery" = false →
      surgeryCandidatePred p = false ∧ observationPred p = false) ∧
    (∀ p q : PatientRecord, p.outcome = q.outcome →
      isSurgicalOutcome p = isSurgicalOutcome q) ∧
    (∀ p : PatientRecord, p.outcome = "" → isSurgicalOutcome p = false) := by
  refine ⟨rfl, rfl, ?_, ?_, ?_⟩
  · intro p h1 h2
    constructor
    · unfold surgeryCandidatePred
      rw [h1, h2]
      decide
    · unfold observationPred
      rw [h1]
      decide
  · intro p q h
    unfold isSurgicalOutcome
    rw [h]
  · intro p h
    unfold isSurgicalOutcome
    rw [h]
    decide

/-- C5 (witness): the neither-bucket part instantiated at a record with empty
outcome and surgery-free remarks. -/
theorem outcome_classification_partition_witness :
    surgeryCandidatePred emptyOutcomeRecord = false ∧
    observationPred emptyOutcomeRecord = false :=
  (outcome_classification_partition "All" []).2.2.1 emptyOutcomeRecord rfl
    (by decide)

/-- C6: for a fixed record list and year selection every aggregate component
of the view model is identical across any two free-text filter strings — only
the visible table list reads the filter; the table equals the year-filtered
list for the empty filter, and in general holds exactly the year-filtered
records whose id, outcome or newFractures contains the filter
case-insensitively. -/
theorem aggregates_independent_of_text_filter (nowYear : Int)
    (P : List PatientRecord) (year f1 f2 : String) :
    ((dashboardView nowYear P year f1).totalPatients =
        (dashboardView nowYear P year f2).totalPatients ∧
      (dashboardView nowYear P year f1).surgeryCandidates =
        (dashboardView nowYear P year f2).surgeryCandidates ∧
      (dashboardView nowYear P year f1).observationPatients =
        (dashboardView nowYear P year f2).observationPatients ∧
      (dashboardView nowYear P year f1).outcomeData =
        (dashboardView nowYear P year f2).outcomeData ∧
      (dashboardView nowYear P year f1).fractureLevelData =
        (dashboardView nowYear P year f2).fractureLevelData ∧
      (dashboardView nowYear P year f1).avgHospitalizationSurgery =
        (dashboardView nowYear P year f2).avgHospitalizationSurgery ∧
      (dashboardView nowYear P year f1).avgHospitalizationConservative =
        (dashboardView nowYear P year f2).avgHospitalizationConservative ∧
      (dashboardView nowYear P year f1).avgPostOpDays =
        (dashboardView nowYear P year f2).avgPostOpDays ∧
      (dashboardView nowYear P year f1).procedurePostOpData =
        (dashboardView nowYear P year f2).procedurePostOpData ∧
      (dashboardView nowYear P year f1).avgTimeToSurgery =
        (dashboardView nowYear P year f2).avgTimeToSurgery) ∧
    (dashboardView nowYear P year "").filteredPatients =
      yearFilteredPatients year P ∧
    (∀ p, p ∈ (dashboardView nowYear P year f1).filteredPatients ↔
      p ∈ yearFilteredPatients year P ∧
        (containsStr (jsToLower p.id) (jsToLower f1) ||
         containsStr (jsToLower p.outcome) (jsToLower f1) ||
         containsStr (jsToLower p.newFractures) (jsToLower f1)) = true) := by
  refine ⟨⟨rfl, rfl, rfl, rfl, rfl, rfl, rfl, rfl, rfl, rfl⟩, ?_, ?_⟩
  · exact List.filter_eq_self.mpr (fun p _ => textFilterPred_empty p)
  · intro p
    exact List.mem_filter

/-- C7 (counterexample): the year-boundary rule does not decrement the start
date's own year; it sets it to the base year minus one.  With base year 2024,
start "2030/01/10" and end "2024-01-05" the code moves the start to 2023 and
returns 360, while the claimed decrement-by-one reading (start moved to 2029,
difference still negative, textual fallback on "2024-01-05" ≥ 1000) yields
indeterminate. -/
theorem year_boundary_start_year_counterexample :
    calculateHospitalizationDays 2025 "2030/01/10" "2024-01-05"
      "2024/01/05 10:00:00" = some 360 ∧
    calcHospSpecDecrement 2025 "2030/01/10" "2024-01-05"
      "2024/01/05 10:00:00" = none := by decide

/-- C7 (amended): the concrete example holds — the bare "01-03" end marker is
resolved in year 2024 taken from the reference timestamp and the result is 6 —
and in general, whenever both markers resolve to valid dates and the start is
chronologically after the end, the start date's year is set to one less than
the base (reference) year — which coincides with decrementing the start's own
year exactly when the start resolved in the base year — before the ceiling
day-difference is computed and accepted when non-negative. -/
theorem year_boundary_correction :
    (∀ nowYear : Int, calculateHospitalizationDays nowYear "2023-12-28"
      "01-03" "2024/01/05 10:00:00" = some 6) ∧
    (∀ (nowYear : Int) (a v t : String) (s e : Int), v ≠ "" → a ≠ "" →
      (∀ q : ℚ, jsNumber (jsTrim v) = some q → 1000 ≤ q) →
      jsTrim v ≠ jsTrim a →
      ((jsDateParse (jsTrim v)).isSome || containsStr (jsTrim v) "-" ||
        containsStr (jsTrim v) "/") = true →
      parseDate a (resolveBaseYear nowYear t) = some s →
      parseDate (jsTrim v) (resolveBaseYear nowYear t) = some e →
      e < s →
      calculateHospitalizationDays nowYear a v t =
        (if 0 ≤ ceilDays (e - jsSetFullYear s (resolveBaseYear nowYear t - 1))
         then some (ceilDays (e - jsSetFullYear s (resolveBaseYear nowYear t - 1)))
         else hospFallback (jsTrim v))) := by
  constructor
  · intro nowYear
    rfl
  · intro nowYear a v t s e hv ha hnum hne hisdate hs he hlt
    have hrest : calcRest nowYear a (jsTrim v) t =
        (if 0 ≤ ceilDays (e - jsSetFullYear s (resolveBaseYear nowYear t - 1))
         then some (ceilDays (e - jsSetFullYear s (resolveBaseYear nowYear t - 1)))
         else hospFallback (jsTrim v)) := by
      unfold calcRest
      rw [if_neg ha, if_neg hne]
      dsimp only
      rw [if_pos hisdate]
      simp only [hs, he]
      rw [if_pos hlt]
    rw [calculateHospitalizationDays, if_neg hv]
    cases hq : jsNumber (jsTrim v) with
    | none => simp only [hq]; exact hrest
    | some q =>
      simp only [hq]
      rw [if_neg (not_lt.mpr (hnum q hq))]
      exact hrest

/-- C7 (witness): the general year-boundary mechanism instantiated at the
bare markers "12-28" and "01-03" with reference year 2024: the start resolves
to 2024-12-28, lies after the end 2024-01-03, is moved to 2023-12-28, and the
6-day difference is accepted. -/
theorem year_boundary_correction_witness :
    calculateHospitalizationDays 2025 "12-28" "01-03" "2024/01/05 10:00:00" =
      some 6 :=
  (year_boundary_correction.2 2025 "12-28" "01-03" "2024/01/05 10:00:00"
    (newDateYMD 2024 11 28) (newDateYMD 2024 0 3) (by decide) (by decide)
    (fun q h => absurd ((show jsNumber (jsTrim "01-03") = none by
      decide).symm.trans h) (by simp))
    (by decide) (by decide) (by decide) (by decide) (by decide)).trans
    (by decide)

/-- C8 (counterexample): a numeric value of magnitude at least 1000 can still
take the direct day-count branch: "-2000" parses as -2000 < 1000 and the
branch returns its floor -2000, whereas the remaining resolution chain on this
marker would have produced the indeterminate `none` (the stripped digits are
2000 ≥ 1000). -/
theorem direct_day_count_magnitude_counterexample :
    calculateHospitalizationDays 2025 "2023/10/01" "-2000" "x" =
      some (-2000) ∧
    calcRest 2025 "2023/10/01" (jsTrim "-2000") "x" = none := by decide

/-- C8 (amended): every non-empty end marker that parses as a number q with
q < 1000 — a signed comparison, not a magnitude test — yields floor q
regardless of the start marker (in particular the marker "14" passes through
as 14), and a numeric value with q ≥ 1000 skips the branch, continuing with
the remaining resolution rules; negative values of any magnitude satisfy
q < 1000 and therefore do take the branch. -/
theorem direct_day_count_branch :
    (∀ (nowYear : Int) (a v t : String) (q : ℚ), v ≠ "" →
      jsNumber (jsTrim v) = some q → q < 1000 →
      calculateHospitalizationDays nowYear a v t = some (Rat.floor q)) ∧
    (∀ (nowYear : Int) (a v t : String) (q : ℚ), v ≠ "" →
      jsNumber (jsTrim v) = some q → 1000 ≤ q →
      calculateHospitalizationDays nowYear a v t =
        calcRest nowYear a (jsTrim v) t) ∧
    (∀ (nowYear : Int) (t : String),
      calculateHospitalizationDays nowYear "2023/10/01" "14" t = some 14) := by
  refine ⟨?_, ?_, ?_⟩
  · intro nowYear a v t q hv hq hlt
    rw [calculateHospitalizationDays, if_neg hv]
    simp only [hq]
    rw [if_pos hlt]
  · intro nowYear a v t q hv hq hge
    rw [calculateHospitalizationDays, if_neg hv]
    simp only [hq]
    rw [if_neg (not_lt.mpr hge)]
  · intro nowYear t
    rfl

/-- C8 (witness): the branch theorem instantiated at the marker "-2" with a
start marker present. -/
theorem direct_day_count_branch_witness :
    calculateHospitalizationDays 2025 "2023/10/01" "-2" "x" =
      some (Rat.floor (-2 : ℚ)) :=
  direct_day_count_branch.1 2025 "2023/10/01" "-2" "x" (-2) (by decide)
    (by decide) (by decide)

/-- C9: every failing data fetch — a thrown network or parse error, or a
non-2xx response — makes `fetchPatients` return exactly the bundled
four-record sample dataset; the catch handler makes the loader total, so no
exception reaches its caller. -/
theorem fetchPatients_failure_fallback (apiUrl : String) (r : FetchResult)
    (h : failingFetch r) :
    fetchPatients (some apiUrl) r = MOCK_PATIENTS ∧
      MOCK_PATIENTS.length = 4 := by
  constructor
  · rcases h with rfl | ⟨body, rfl⟩ | rfl
    · rfl
    · rfl
    · rfl
  · rfl

/-- C9 (witness): the fallback at a concrete network error. -/
theorem fetchPatients_failure_fallback_witness :
    fetchPatients (some "https://example.test/api")
      FetchResult.networkError = MOCK_PATIENTS ∧ MOCK_PATIENTS.length = 4 :=
  fetchPatients_failure_fallback "https://example.test/api"
    FetchResult.networkError (Or.inl rfl)

/-- C10: for every surgical record whose discharge-side value parses as a pure
day count n below 1000 while the pre-operative interval is indeterminate, the
post-operative computation returns n itself — the total stay with nothing
subtracted — because the direct surgery-to-value computation passes the
numeric value through unchanged. -/
theorem postOp_passthrough_total_stay (nowYear : Int) (p : PatientRecord)
    (n : Int) (hdv : dischargeValOf p ≠ "")
    (hnum : jsNumber (jsTrim (dischargeValOf p)) = some (mkRat n 1))
    (hlt : mkRat n 1 < 1000)
    (hpre : calculateHospitalizationDays nowYear p.admissionDate p.surgeryDate
      p.timestamp = none) :
    postOpCompute nowYear p = some (mkRat n 1) := by
  have hcalc : calculateHospitalizationDays nowYear p.surgeryDate
      (dischargeValOf p) p.timestamp = some n := by
    rw [calculateHospitalizationDays, if_neg hdv]
    simp only [hnum]
    rw [if_pos hlt, ratFloor_mkRat_one]
  unfold postOpCompute
  simp only [hnum, hpre, hcalc, Option.map_some', ite_self]

/-- C10 (witness): the passthrough at a record with total-stay value "14" and
an empty surgery date (indeterminate pre-operative interval). -/
theorem postOp_passthrough_total_stay_witness :
    postOpCompute 2025 passthroughRecord = some (mkRat 14 1) :=
  postOp_passthrough_total_stay 2025 passthroughRecord 14 (by decide)
    (by decide) (by decide) (by decide)
